import Mathlib

/-!
Verification of the key-value store of the refactoring-rust-tutorial
repository.  The Rust sources are shallowly embedded: the in-memory
HashMap backing the store becomes an association list with unique keys,
byte payloads become lists of naturals, and the external image library
(decode, grayscale, PNG encode) is passed in as explicit function
parameters, since it is not code of this repository.
-/

/-- Byte payloads (hyper Bytes) as lists of naturals. -/
def ByteSeq : Type := List Nat

instance : DecidableEq ByteSeq :=
  inferInstanceAs (DecidableEq (List Nat))

/-- The in-memory map backing the store (HashMap String V in the source):
an association list, kept with at most one entry per key by storeInsert. -/
def StoreMap (V : Type) : Type := List (String × V)

/-- HashMap.get: first (and, by the insert discipline, only) entry for the key. -/
def storeGet {V : Type} (m : StoreMap V) (k : String) : Option V :=
  match m with
  | [] => none
  | (k1, v) :: rest => if k1 = k then some v else storeGet rest k

/-- HashMap.insert: replaces any previous entry for the key. -/
def storeInsert {V : Type} (m : StoreMap V) (k : String) (v : V) : StoreMap V :=
  (k, v) :: List.filter (fun p => !decide (p.1 = k)) m

/-- HashMap.contains_key. -/
def storeContains {V : Type} (m : StoreMap V) (k : String) : Bool :=
  (storeGet m k).isSome

/-- Applying a sequence of writes in order (the store starts empty at
process start and evolves only through insert). -/
def applyWrites {V : Type} (ops : List (String × V)) (m : StoreMap V) : StoreMap V :=
  match ops with
  | [] => m
  | (k, v) :: rest => applyWrites rest (storeInsert m k v)

/-- KVError from src/kv_store/kv_error.rs: an HTTP status code plus a message. -/
structure KVError where
  statusCode : Nat
  message : String
deriving DecidableEq

/-- KVError::forbidden. -/
def KVError.forbidden : KVError :=
  { statusCode := 403, message := "Operation not allowed" }

/-- KVError::not_found. -/
def KVError.notFound : KVError :=
  { statusCode := 404, message := "Key not found" }

/-- KVError::impossible_operation. -/
def KVError.impossibleOperation : KVError :=
  { statusCode := 500, message := "Not possible to insert value" }

/-- From PoisonError for KVError: guard-acquisition failure. -/
def KVError.ofPoison : KVError :=
  { statusCode := 500, message := "Database not reachable" }

/-- From ImageError for KVError: undecodable image payload. -/
def KVError.ofImage : KVError :=
  { statusCode := 400, message := "Image not loadable" }

/-- Decidable equality for Except results, used to evaluate witnesses. -/
instance {E A : Type} [DecidableEq E] [DecidableEq A] : DecidableEq (Except E A) :=
  fun a b =>
    match a, b with
    | Except.ok x, Except.ok y =>
      if h : x = y then Decidable.isTrue (by rw [h])
      else Decidable.isFalse (by intro hc; cases hc; exact h rfl)
    | Except.ok _, Except.error _ => Decidable.isFalse (by intro hc; cases hc)
    | Except.error _, Except.ok _ => Decidable.isFalse (by intro hc; cases hc)
    | Except.error x, Except.error y =>
      if h : x = y then Decidable.isTrue (by rw [h])
      else Decidable.isFalse (by intro hc; cases hc; exact h rfl)

/-- Rust str::starts_with, over the character sequences of the strings. -/
def strStartsWith (s pre : String) : Bool :=
  List.isPrefixOf pre.data s.data

/-- StoredType from src/kv_store/stored_type.rs: a decoded image, or an
opaque (content type, bytes) payload.  Img is the external DynamicImage type. -/
inductive StoredType (Img : Type) where
  | Image : Img → StoredType Img
  | Other : String → ByteSeq → StoredType Img
deriving DecidableEq

/-- StoredType::new from src/kv_store/stored_type.rs: when the rendered
content type starts with the string "image" the bytes are decoded (decode
stands for image::load_from_memory), failure becoming the ImageError-derived
KVError; otherwise the payload is stored opaquely without any decode. -/
def StoredType.new {Img : Type} (decode : ByteSeq → Option Img)
    (contentType : String) (bytes : ByteSeq) : Except KVError (StoredType Img) :=
  if strStartsWith contentType "image" then
    match decode bytes with
    | some img => Except.ok (StoredType.Image img)
    | none => Except.error KVError.ofImage
  else
    Except.ok (StoredType.Other contentType bytes)

/-- KeyValueStore::get_item for HashMap (src/database/mod.rs). -/
def getItem {V : Type} (m : StoreMap V) (key : String) : Option V :=
  storeGet m key

/-- KeyValueStore::set_item for HashMap (src/database/mod.rs). -/
def setItem {V : Type} (m : StoreMap V) (key : String) (value : V) : StoreMap V :=
  storeInsert m key value

/-- KVDatabase::read for HashMap (src/kv_store/database.rs). -/
def kvRead {V : Type} (m : StoreMap V) (key : String) : Except KVError V :=
  match storeGet m key with
  | some value => Except.ok value
  | none => Except.error KVError.notFound

/-- KVDatabase::insert for HashMap (src/kv_store/database.rs): always Ok. -/
def kvInsert {V : Type} (m : StoreMap V) (key : String) (value : V) :
    Except KVError (Unit × StoreMap V) :=
  Except.ok ((), storeInsert m key value)

/-- An RwLock-guarded map: the poisoned flag records whether a prior
panic left the lock unusable, in which case acquisition fails. -/
structure LockedMap (V : Type) where
  poisoned : Bool
  map : StoreMap V

/-- KVDatabase::read for RwLock of HashMap (src/kv_store/database.rs):
the read-guard acquisition error converts to KVError via From PoisonError. -/
def rwRead {V : Type} (m : LockedMap V) (key : String) : Except KVError V :=
  if m.poisoned then Except.error KVError.ofPoison
  else kvRead m.map key

/-- KVDatabase::insert for RwLock of HashMap (src/kv_store/database.rs). -/
def rwInsert {V : Type} (m : LockedMap V) (key : String) (value : V) :
    Except KVError (Unit × LockedMap V) :=
  if m.poisoned then Except.error KVError.ofPoison
  else Except.ok ((), { m with map := storeInsert m.map key value })

/-- Outcome of an HTTP handler: a processed response (status code with a
text body, or with a content-typed byte body), or a panic of the handling
task (expect or unwrap on a failed result). -/
inductive HttpOutcome where
  | panic : String → HttpOutcome
  | text : Nat → String → HttpOutcome
  | payload : Nat → String → ByteSeq → HttpOutcome
deriving DecidableEq

/-- The store used by the handlers in src/kv_store/mod.rs: keys map to raw
(content type, bytes) pairs. -/
def TupleStore : Type := StoreMap (String × ByteSeq)

/-- post_kv from src/kv_store/mod.rs: takes the write guard with expect
(panicking when the lock is poisoned), inserts the raw pair, answers OK. -/
def post_kv (poisoned : Bool) (db : TupleStore)
    (key contentType : String) (data : ByteSeq) : HttpOutcome × TupleStore :=
  if poisoned then (HttpOutcome.panic "What, an error here?", db)
  else (HttpOutcome.text 200 "OK", storeInsert db key (contentType, data))

/-- get_kv from src/kv_store/mod.rs: takes the read guard with unwrap
(panicking when the lock is poisoned), then serves the stored pair under
its content type, or 404. -/
def get_kv (poisoned : Bool) (db : TupleStore) (key : String) : HttpOutcome :=
  if poisoned then HttpOutcome.panic "called unwrap on an Err value"
  else
    match storeGet db key with
    | some (contentType, data) => HttpOutcome.payload 200 contentType data
    | none => HttpOutcome.text 404 "Key not found"

/-- grayscale from src/kv_store/mod.rs.  The external image crate enters as
parameters: decode is image::load_from_memory, grayscaleImage is
DynamicImage::grayscale, writePng is write_to with the PNG output format
(None modelling its error case).  The handler only ever takes the read
guard, so the store it leaves behind is returned unchanged in every branch. -/
def grayscale {Img : Type} (decode : ByteSeq → Option Img)
    (grayscaleImage : Img → Img) (writePng : Img → Option ByteSeq)
    (poisoned : Bool) (db : TupleStore) (key : String) :
    HttpOutcome × TupleStore :=
  if poisoned then (HttpOutcome.text 500 "Error accessing state", db)
  else if storeContains db key then
    match storeGet db key with
    | none => (HttpOutcome.panic "called unwrap on a None value", db)
    | some (contentType, data) =>
      if contentType = "image/png" then
        match decode data with
        | none =>
          (HttpOutcome.text 403 "Not possible to grayscale this type of image", db)
        | some image =>
          match writePng (grayscaleImage image) with
          | none => (HttpOutcome.text 500 "Error writing grayscale image", db)
          | some bytes => (HttpOutcome.payload 200 "image/png" bytes, db)
      else
        (HttpOutcome.text 403 "Not possible to grayscale this type of image", db)
  else (HttpOutcome.text 404 "Key not found", db)

-- Basic association-list lemmas -------------------------------------------

theorem storeGet_insert_self {V : Type} (m : StoreMap V) (k : String) (v : V) :
    storeGet (storeInsert m k v) k = some v := by
  simp [storeInsert, storeGet]

theorem storeGet_filter_ne {V : Type} (m : StoreMap V) (k k' : String)
    (hne : k' ≠ k) :
    storeGet (List.filter (fun p => !decide (p.1 = k)) m) k' = storeGet m k' := by
  induction m with
  | nil => rfl
  | cons hd tl ih =>
    cases hd with
    | mk k1 v1 =>
      by_cases hk : k1 = k
      · have hne2 : ¬ k = k' := fun h => hne h.symm
        simp [List.filter_cons, hk, storeGet, hne2, ih]
      · by_cases hk' : k1 = k'
        · simp [List.filter_cons, hk, storeGet, hk', hne]
        · simp [List.filter_cons, hk, storeGet, hk', ih]

theorem storeGet_insert_other {V : Type} (m : StoreMap V) (k k' : String)
    (v : V) (hne : k' ≠ k) :
    storeGet (storeInsert m k v) k' = storeGet m k' := by
  simp only [storeInsert, storeGet]
  rw [if_neg (fun h => hne h.symm)]
  exact storeGet_filter_ne m k k' hne

theorem storeGet_applyWrites_not_mem {V : Type} (ops : List (String × V))
    (m : StoreMap V) (k : String) (h : ∀ p ∈ ops, p.1 ≠ k) :
    storeGet (applyWrites ops m) k = storeGet m k := by
  induction ops generalizing m with
  | nil => rfl
  | cons hd tl ih =>
    cases hd with
    | mk k1 v1 =>
      have h1 : k1 ≠ k := h (k1, v1) (List.mem_cons_self _ _)
      have h2 : ∀ p ∈ tl, p.1 ≠ k := fun p hp => h p (List.mem_cons_of_mem _ hp)
      calc storeGet (applyWrites tl (storeInsert m k1 v1)) k
          = storeGet (storeInsert m k1 v1) k := ih _ h2
        _ = storeGet m k := storeGet_insert_other m k1 k v1 (fun h => h1 h.symm)

-- Claim theorems -----------------------------------------------------------

/-- Claim C1: round-trip identity.  After write(k, v) succeeds, read(k)
returns exactly v, and keeps doing so across any further writes that do not
touch k, for both the KVDatabase (read/insert) and KeyValueStore
(get_item/set_item) implementations over HashMap. -/
theorem C1_roundtrip {V : Type} (m : StoreMap V) (k : String) (v : V)
    (ops : List (String × V)) (h : ∀ p ∈ ops, p.1 ≠ k) :
    kvInsert m k v = Except.ok ((), storeInsert m k v) ∧
    kvRead (applyWrites ops (storeInsert m k v)) k = Except.ok v ∧
    getItem (applyWrites ops (setItem m k v)) k = some v := by
  have hg : storeGet (applyWrites ops (storeInsert m k v)) k = some v := by
    rw [storeGet_applyWrites_not_mem _ _ _ h, storeGet_insert_self]
  refine ⟨rfl, ?_, ?_⟩
  · simp [kvRead, hg]
  · simp [getItem, setItem, hg]

/-- Witness for C1: a concrete store, write, and later writes to other keys. -/
theorem C1_roundtrip_witness :
    kvInsert ([("b", 1)] : StoreMap Nat) "a" 2 =
      Except.ok ((), storeInsert [("b", 1)] "a" 2) ∧
    kvRead (applyWrites [("b", 3), ("c", 4)] (storeInsert [("b", 1)] "a" 2)) "a" =
      Except.ok 2 ∧
    getItem (applyWrites [("b", 3), ("c", 4)] (setItem [("b", 1)] "a" 2)) "a" =
      some 2 :=
  C1_roundtrip [("b", 1)] "a" 2 [("b", 3), ("c", 4)] (by decide)

/-- Claim C2: a key never written reads as NotFound, whose status code is
404, and the GET handler answers 404 Key not found for it. -/
theorem C2_notFound {V : Type} (k : String) (ops : List (String × V))
    (tops : List (String × (String × ByteSeq)))
    (h : ∀ p ∈ ops, p.1 ≠ k) (ht : ∀ p ∈ tops, p.1 ≠ k) :
    kvRead (applyWrites ops ([] : StoreMap V)) k = Except.error KVError.notFound ∧
    KVError.notFound.statusCode = 404 ∧
    get_kv false (applyWrites tops ([] : TupleStore)) k =
      HttpOutcome.text 404 "Key not found" := by
  have h1 : storeGet (applyWrites ops ([] : StoreMap V)) k = none := by
    rw [storeGet_applyWrites_not_mem _ _ _ h]; rfl
  have h2 : storeGet (applyWrites tops ([] : TupleStore)) k = none := by
    rw [storeGet_applyWrites_not_mem _ _ _ ht]; rfl
  refine ⟨?_, rfl, ?_⟩
  · simp [kvRead, h1]
  · simp [get_kv, h2]

/-- Witness for C2: a fresh store receiving writes only under other keys. -/
theorem C2_notFound_witness :
    kvRead (applyWrites [("a", 1)] ([] : StoreMap Nat)) "x" =
      Except.error KVError.notFound ∧
    KVError.notFound.statusCode = 404 ∧
    get_kv false (applyWrites [("b", ("text/plain", [7]))] ([] : TupleStore)) "x" =
      HttpOutcome.text 404 "Key not found" :=
  C2_notFound "x" [("a", 1)] [("b", ("text/plain", [7]))] (by decide) (by decide)

/-- Claim C3: overwrite is last-write-wins and total replacement, for both
trait implementations: writing v1 then v2 under the same key makes read
return exactly v2. -/
theorem C3_overwrite {V : Type} (m : StoreMap V) (k : String) (v1 v2 : V) :
    kvInsert (storeInsert m k v1) k v2 =
      Except.ok ((), storeInsert (storeInsert m k v1) k v2) ∧
    kvRead (storeInsert (storeInsert m k v1) k v2) k = Except.ok v2 ∧
    getItem (setItem (setItem m k v1) k v2) k = some v2 := by
  refine ⟨rfl, ?_, ?_⟩
  · simp [kvRead, storeGet_insert_self]
  · simp [getItem, setItem, storeGet_insert_self]

/-- Claim C9: writes are local to their key: a write under k leaves the
value read under any other key k2 unchanged. -/
theorem C9_frame {V : Type} (m : StoreMap V) (k k2 : String) (v : V)
    (h : k2 ≠ k) :
    getItem (setItem m k v) k2 = getItem m k2 ∧
    kvRead (storeInsert m k v) k2 = kvRead m k2 := by
  have hg := storeGet_insert_other m k k2 v h
  constructor
  · simp [getItem, setItem, hg]
  · simp [kvRead, hg]

/-- Witness for C9: a present other key keeps its value, checked concretely. -/
theorem C9_frame_witness :
    getItem (setItem ([("b", 5)] : StoreMap Nat) "a" 7) "b" = getItem [("b", 5)] "b" ∧
    kvRead (storeInsert ([("b", 5)] : StoreMap Nat) "a" 7) "b" = kvRead [("b", 5)] "b" :=
  C9_frame [("b", 5)] "a" "b" 7 (by decide)

-- Concrete stand-ins for the external image crate, for witnesses ------------

/-- A concrete decoder for witnesses: decodes only the byte list [1], to 7. -/
def decodeOnly1 : ByteSeq → Option Nat :=
  fun b => if b = ([1] : List Nat) then some 7 else none

/-- A decoder that rejects everything, standing for undecodable payloads. -/
def decodeNone : ByteSeq → Option Nat :=
  fun _ => none

/-- A concrete grayscale transform for witnesses. -/
def grayNat : Nat → Nat :=
  fun i => i + 1

/-- A concrete PNG encoder for witnesses. -/
def encodeNat : Nat → Option ByteSeq :=
  fun i => some [i]

/-- Claim C4 fails as stated: StoredType::new checks the prefix "image",
not "image/".  The content type "imagepart/x" does not start with
"image/", yet classification attempts a decode and fails with the
InvalidImage error instead of returning the opaque payload. -/
theorem C4_counterexample :
    strStartsWith "imagepart/x" "image/" = false ∧
    StoredType.new decodeNone "imagepart/x" [] = Except.error KVError.ofImage ∧
    StoredType.new decodeNone "imagepart/x" [] ≠
      Except.ok (StoredType.Other "imagepart/x" []) := by
  refine ⟨by decide, by rfl, by decide⟩

/-- Claim C4 (amended): classification is driven by the prefix "image" of
the declared content type: with that prefix a successful decode yields
Image and a failed decode the 400 InvalidImage error; without that prefix
the payload is stored opaquely and no decode can be attempted. -/
theorem C4_classify {Img : Type} (decode : ByteSeq → Option Img)
    (ct : String) (bytes : ByteSeq) :
    (strStartsWith ct "image" = true →
      (∀ img, decode bytes = some img →
        StoredType.new decode ct bytes = Except.ok (StoredType.Image img)) ∧
      (decode bytes = none →
        StoredType.new decode ct bytes = Except.error KVError.ofImage ∧
        KVError.ofImage.statusCode = 400)) ∧
    (strStartsWith ct "image" = false →
      StoredType.new decode ct bytes = Except.ok (StoredType.Other ct bytes)) := by
  constructor
  · intro hpre
    constructor
    · intro img hdec
      simp [StoredType.new, hpre, hdec]
    · intro hdec
      exact ⟨by simp [StoredType.new, hpre, hdec], rfl⟩
  · intro hpre
    simp [StoredType.new, hpre]

/-- Witness for C4 (amended): the three branches at concrete inputs. -/
theorem C4_classify_witness :
    StoredType.new decodeOnly1 "image/png" [1] = Except.ok (StoredType.Image 7) ∧
    StoredType.new decodeNone "image/gif" [2] = Except.error KVError.ofImage ∧
    StoredType.new decodeNone "text/plain" [3] =
      Except.ok (StoredType.Other "text/plain" [3]) :=
  ⟨((C4_classify decodeOnly1 "image/png" [1]).1 (by decide)).1 7 (by decide),
   (((C4_classify decodeNone "image/gif" [2]).1 (by decide)).2 (by rfl)).1,
   (C4_classify decodeNone "text/plain" [3]).2 (by decide)⟩

/-- Claim C5 fails as stated: the post_kv handler performs no decode at
all; a declared image with undecodable bytes is stored raw and answered
200 OK rather than rejected with 400. -/
theorem C5_counterexample :
    post_kv false [] "crab" "image/png" [0] =
      (HttpOutcome.text 200 "OK", [("crab", ("image/png", [0]))]) ∧
    (post_kv false [] "crab" "image/png" [0]).1 ≠
      HttpOutcome.text 400 "Image not loadable" := by
  refine ⟨by rfl, by decide⟩

/-- Claim C5 (amended): post_kv stores the raw content-type and bytes pair
without attempting any decode and answers 200 OK for every request,
including declared-image requests whose bytes would not decode; the 400
rejection exists only in the StoredType::new constructor, which this
handler does not call. -/
theorem C5_post_stores_raw (db : TupleStore) (key ct : String) (data : ByteSeq) :
    post_kv false db key ct data =
      (HttpOutcome.text 200 "OK", storeInsert db key (ct, data)) := by
  rfl

/-- Claim C6 fails as stated: a key holding a valid, decodable image whose
declared content type is image/jpeg is answered 403 by the grayscale
handler, not 200. -/
theorem C6_counterexample :
    decodeOnly1 [1] = some 7 ∧
    (grayscale decodeOnly1 grayNat encodeNat false
        [("crab", ("image/jpeg", [1]))] "crab").1 =
      HttpOutcome.text 403 "Not possible to grayscale this type of image" := by
  refine ⟨by rfl, by decide⟩

/-- Claim C6 (amended): grayscale dispatch as the handler is written: a
missing key is answered 404; a stored content type other than image/png is
answered 403, even when its bytes decode; a stored image/png whose bytes
decode is answered 200 with the PNG-encoded grayscaled image. -/
theorem C6_dispatch {Img : Type} (decode : ByteSeq → Option Img)
    (g : Img → Img) (enc : Img → Option ByteSeq) (db : TupleStore)
    (key : String) :
    (storeGet db key = none →
      (grayscale decode g enc false db key).1 =
        HttpOutcome.text 404 "Key not found") ∧
    (∀ ct data, storeGet db key = some (ct, data) → ct ≠ "image/png" →
      (grayscale decode g enc false db key).1 =
        HttpOutcome.text 403 "Not possible to grayscale this type of image") ∧
    (∀ data img out, storeGet db key = some ("image/png", data) →
      decode data = some img → enc (g img) = some out →
      (grayscale decode g enc false db key).1 =
        HttpOutcome.payload 200 "image/png" out) := by
  refine ⟨?_, ?_, ?_⟩
  · intro h
    simp [grayscale, storeContains, h]
  · intro ct data h hne
    simp [grayscale, storeContains, h, hne]
  · intro data img out h hdec henc
    simp [grayscale, storeContains, h, hdec, henc]

/-- Witness for C6 (amended): the three branches at concrete stores. -/
theorem C6_dispatch_witness :
    (grayscale decodeOnly1 grayNat encodeNat false [] "crab").1 =
      HttpOutcome.text 404 "Key not found" ∧
    (grayscale decodeOnly1 grayNat encodeNat false
        [("t", ("text/plain", [2]))] "t").1 =
      HttpOutcome.text 403 "Not possible to grayscale this type of image" ∧
    (grayscale decodeOnly1 grayNat encodeNat false
        [("crab", ("image/png", [1]))] "crab").1 =
      HttpOutcome.payload 200 "image/png" [8] :=
  ⟨(C6_dispatch decodeOnly1 grayNat encodeNat [] "crab").1 (by rfl),
   (C6_dispatch decodeOnly1 grayNat encodeNat
      [("t", ("text/plain", [2]))] "t").2.1 "text/plain" [2] (by rfl) (by decide),
   (C6_dispatch decodeOnly1 grayNat encodeNat
      [("crab", ("image/png", [1]))] "crab").2.2 [1] 7 [8]
      (by rfl) (by rfl) (by rfl)⟩

/-- In every branch the grayscale handler holds only the read guard and
returns the store untouched. -/
theorem grayscale_preserves_store {Img : Type} (decode : ByteSeq → Option Img)
    (g : Img → Img) (enc : Img → Option ByteSeq) (p : Bool)
    (db : TupleStore) (key : String) :
    (grayscale decode g enc p db key).2 = db := by
  unfold grayscale
  repeat' split
  all_goals rfl

/-- Claim C7: image transforms are pure with respect to the store: for a
key holding a decodable PNG image, running the grayscale handler leaves
the store exactly as it was, so a subsequent GET of the key returns the
same value as before the transform. -/
theorem C7_pure {Img : Type} (decode : ByteSeq → Option Img)
    (g : Img → Img) (enc : Img → Option ByteSeq) (db : TupleStore)
    (key : String) (data : ByteSeq) (img : Img)
    (h : storeGet db key = some ("image/png", data))
    (hdec : decode data = some img) :
    (grayscale decode g enc false db key).2 = db ∧
    get_kv false (grayscale decode g enc false db key).2 key =
      get_kv false db key := by
  have h2 := grayscale_preserves_store decode g enc false db key
  exact ⟨h2, by rw [h2]⟩

/-- Witness for C7: a concrete store holding a decodable PNG. -/
theorem C7_pure_witness :
    (grayscale decodeOnly1 grayNat encodeNat false
        [("crab", ("image/png", [1]))] "crab").2 = [("crab", ("image/png", [1]))] ∧
    get_kv false
        (grayscale decodeOnly1 grayNat encodeNat false
          [("crab", ("image/png", [1]))] "crab").2 "crab" =
      get_kv false [("crab", ("image/png", [1]))] "crab" :=
  C7_pure decodeOnly1 grayNat encodeNat [("crab", ("image/png", [1]))]
    "crab" [1] 7 (by rfl) (by rfl)

/-- Claim C8 fails as stated: with the guard poisoned, the post_kv handler
panics through expect instead of answering the 500 Unavailable error, and
the get_kv handler panics through unwrap. -/
theorem C8_counterexample :
    (post_kv true [] "crab" "text/plain" [7]).1 =
      HttpOutcome.panic "What, an error here?" ∧
    (post_kv true [] "crab" "text/plain" [7]).1 ≠
      HttpOutcome.text 500 "Database not reachable" ∧
    get_kv true [] "crab" = HttpOutcome.panic "called unwrap on an Err value" := by
  refine ⟨by rfl, by decide, by rfl⟩

/-- Claim C8 (amended): the RwLock-backed KVDatabase read and insert
surface guard failure as the 500 Unavailable error, and the grayscale
handler answers 500 Error accessing state; the post_kv and get_kv handlers
instead panic on a poisoned guard. -/
theorem C8_guard {V Img : Type} (m : StoreMap V) (key : String) (v : V)
    (db : TupleStore) (ct : String) (data : ByteSeq)
    (decode : ByteSeq → Option Img) (g : Img → Img)
    (enc : Img → Option ByteSeq) :
    rwRead { poisoned := true, map := m } key = Except.error KVError.ofPoison ∧
    rwInsert { poisoned := true, map := m } key v =
      Except.error KVError.ofPoison ∧
    KVError.ofPoison.statusCode = 500 ∧
    (grayscale decode g enc true db key).1 =
      HttpOutcome.text 500 "Error accessing state" ∧
    (post_kv true db key ct data).1 = HttpOutcome.panic "What, an error here?" ∧
    get_kv true db key = HttpOutcome.panic "called unwrap on an Err value" :=
  ⟨rfl, rfl, rfl, rfl, rfl, rfl⟩

/-- Claim C10: the grayscale handler accepts only the exact content type
image/png: any other stored content type, image types with decodable bytes
included, is answered 403. -/
theorem C10_png_only {Img : Type} (decode : ByteSeq → Option Img)
    (g : Img → Img) (enc : Img → Option ByteSeq) (db : TupleStore)
    (key ct : String) (data : ByteSeq) (img : Img)
    (h : storeGet db key = some (ct, data)) (hne : ct ≠ "image/png")
    (hdec : decode data = some img) :
    (grayscale decode g enc false db key).1 =
      HttpOutcome.text 403 "Not possible to grayscale this type of image" := by
  simp [grayscale, storeContains, h, hne]

/-- Witness for C10: a stored decodable image/jpeg value is answered 403. -/
theorem C10_png_only_witness :
    (grayscale decodeOnly1 grayNat encodeNat false
        [("j", ("image/jpeg", [1]))] "j").1 =
      HttpOutcome.text 403 "Not possible to grayscale this type of image" :=
  C10_png_only decodeOnly1 grayNat encodeNat [("j", ("image/jpeg", [1]))]
    "j" "image/jpeg" [1] 7 (by rfl) (by decide) (by rfl)
